import Mathlib

/-!
Shallow embedding of the SkillSync matching service
(src/services/matching-service/server.js).

Modelling conventions:
* JavaScript numbers are IEEE doubles; every value the matching code
  computes is either an ordinary finite value or NaN (produced by the
  0/0 coverage ratios).  We model finite values as exact rationals and
  NaN as an explicit constructor of `JSNum`.  The arithmetic performed by
  the service (sums of at most five products of values in [0,100] with
  the literal weights) is exact at this granularity.
* A JavaScript value that may be `null`/`undefined` is modelled as an
  `Option`; the truthiness tests of the source (`!userSkills`,
  `availabilityMap[x] || 50`, ...) are translated case by case, keeping
  the JS semantics that an empty array is truthy and an empty string is
  falsy.
* The asynchronous HTTP fetches of collaborator services are modelled as
  `Except Unit` values supplied to the pipeline (the outcome of the fetch
  for this trigger), and thrown JS exceptions as `Except.error`.
* The Mongo store is a list of match records; `match.save()` appends
  after mongoose schema validation: a Number path rejects NaN (the cast
  assertion and the min/max validators both fail on it) and values
  outside the declared [0,100] range, so a save with a NaN factor value
  throws a ValidationError, which the function-level catch of the
  generators turns into an abort of the batch.
-/

attribute [local semireducible] Rat.mul Rat.add Rat.sub Rat.inv Rat.ofScientific

/-- JS `String.prototype.toLowerCase` for the ASCII strings this service
compares (skill names, locations, tags). -/
def jsToLower (s : String) : String :=
  ⟨s.data.map Char.toLower⟩

/-- Accumulator for `jsSplitComma`. -/
def splitCommaAux : List Char → List Char → List String
  | [], acc => [⟨acc.reverse⟩]
  | c :: cs, acc =>
    if c = ',' then String.mk acc.reverse :: splitCommaAux cs []
    else splitCommaAux cs (c :: acc)

/-- JS `s.split(",")`: never yields an empty array (splitting the empty
string gives one empty component). -/
def jsSplitComma (s : String) : List String :=
  splitCommaAux s.data []

/-- Whitespace for `jsTrim`. -/
def jsIsSpace (c : Char) : Bool :=
  c = ' ' || c = '\t' || c = '\n' || c = '\r'

/-- JS `String.prototype.trim`. -/
def jsTrim (s : String) : String :=
  ⟨((s.data.dropWhile jsIsSpace).reverse.dropWhile jsIsSpace).reverse⟩

/-- A JavaScript number as used by the scoring engine: either an ordinary
finite value (modelled exactly as a rational) or NaN. -/
inductive JSNum where
  | nan : JSNum
  | num : ℚ → JSNum
deriving DecidableEq

/-- JS addition: NaN propagates through `+`. -/
def JSNum.add : JSNum → JSNum → JSNum
  | .nan, _ => .nan
  | .num _, .nan => .nan
  | .num a, .num b => .num (a + b)

/-- JS multiplication by a finite constant: NaN propagates. -/
def JSNum.mulConst : JSNum → ℚ → JSNum
  | .nan, _ => .nan
  | .num a, c => .num (a * c)

/-- JS division `m / n` of two list-length counts.  In the source the
numerator is always the length of a filtered sublist of the denominator's
list, so `n = 0` forces `m = 0` and the only zero-denominator case is
`0 / 0 = NaN`. -/
def jsDiv (m n : ℕ) : JSNum :=
  if n = 0 then .nan else .num ((m : ℚ) / (n : ℚ))

/-- JS `Math.min(100, x)`: NaN propagates. -/
def jsMin100 : JSNum → JSNum
  | .nan => .nan
  | .num a => .num (min 100 a)

/-- JS `x || 0` applied to a number: NaN and 0 are falsy, so NaN is
coerced to 0 (and 0 stays 0). -/
def orZero : JSNum → ℚ
  | .nan => 0
  | .num a => a

/-- JS `x > c` comparison on a number: every comparison with NaN is false. -/
def jsGtConst : JSNum → ℚ → Bool
  | .nan, _ => false
  | .num a, c => decide (c < a)

/-- JS `Math.round` of a factor value that the guard has already checked
to be an ordinary number (the NaN branch is unreachable at the call
site in `generateMatchReasons`). -/
def jsRound : JSNum → ℤ
  | .nan => 0
  | .num a => round a

/-- JS `String.prototype.includes`: substring containment. -/
def jsStrIncludes (s sub : String) : Bool :=
  s.toList.tails.any (fun t => sub.toList.isPrefixOf t)

/-- MatchingAlgorithm.calculateSkillMatch (server.js:163-179).
`userSkills` and `requiredSkills` are arrays or `undefined`; the guard
`if (!userSkills || !requiredSkills) return 0` fires only for a missing
array (an empty array is truthy in JS).  `optionalSkills` has JS default
value `[]`, resolved at the call sites. -/
def calculateSkillMatch (userSkills requiredSkills : Option (List String))
    (optionalSkills : List String) : JSNum :=
  match userSkills, requiredSkills with
  | none, _ => .num 0
  | some _, none => .num 0
  | some us, some rs =>
    let userSkillsLower := us.map jsToLower
    let requiredSkillsLower := rs.map jsToLower
    let optionalSkillsLower := optionalSkills.map jsToLower
    let requiredMatches :=
      (requiredSkillsLower.filter (fun s => userSkillsLower.contains s)).length
    let requiredScore := (jsDiv requiredMatches requiredSkillsLower.length).mulConst 70
    let optionalMatches :=
      (optionalSkillsLower.filter (fun s => userSkillsLower.contains s)).length
    let optionalScore : JSNum :=
      if 0 < optionalSkillsLower.length then
        (jsDiv optionalMatches optionalSkillsLower.length).mulConst 30
      else .num 0
    jsMin100 (requiredScore.add optionalScore)

/-- Lookup in `experienceMap` followed by `|| 1`: an unrecognized or
missing experience string yields `undefined`, which `|| 1` turns into 1. -/
def experienceLevel (userExperience : Option String) : ℤ :=
  match userExperience with
  | some s =>
    if s = "Entry Level" then 1
    else if s = "Mid Level" then 2
    else if s = "Senior Level" then 3
    else if s = "Expert" then 4
    else 1
  | none => 1

/-- Lookup in `difficultyMap` followed by `|| 1`. -/
def difficultyLevel (projectDifficulty : Option String) : ℤ :=
  match projectDifficulty with
  | some s =>
    if s = "Beginner" then 1
    else if s = "Intermediate" then 2
    else if s = "Advanced" then 3
    else 1
  | none => 1

/-- MatchingAlgorithm.calculateExperienceMatch (server.js:181-201):
`Math.max(0, 100 - Math.abs(userLevel - projectLevel) * 25)`. -/
def calculateExperienceMatch (userExperience projectDifficulty : Option String) : ℤ :=
  max 0 (100 - |experienceLevel userExperience - difficultyLevel projectDifficulty| * 25)

/-- MatchingAlgorithm.calculateAvailabilityMatch (server.js:203-213):
`availabilityMap[userAvailability] || 50`; the second parameter is unused
in the source. -/
def calculateAvailabilityMatch (userAvailability : Option String)
    (_projectDuration : Option String) : ℚ :=
  match userAvailability with
  | some s =>
    if s = "Full-time" then 100
    else if s = "Part-time" then 75
    else if s = "Weekends" then 50
    else if s = "Flexible" then 85
    else 50
  | none => 50

/-- MatchingAlgorithm.calculateLocationMatch (server.js:215-229).
The guard `if (!userLocation || !projectLocation) return 50` also fires
for an empty string (falsy in JS).  `split(",")` never yields an empty
array, so the denominator `Math.max(lengths)` is at least 1. -/
def calculateLocationMatch (userLocation projectLocation : Option String) : ℚ :=
  match userLocation, projectLocation with
  | none, _ => 50
  | some _, none => 50
  | some u, some p =>
    if u = "" ∨ p = "" then 50
    else if jsToLower u = jsToLower p then 100
    else
      let userParts := (jsSplitComma u).map (fun s => jsToLower (jsTrim s))
      let projectParts := (jsSplitComma p).map (fun s => jsToLower (jsTrim s))
      let commonParts := userParts.filter (fun s => projectParts.contains s)
      min 100 ((commonParts.length : ℚ) / (max userParts.length projectParts.length : ℕ) * 100)

/-- User preference sub-document (fields the matching service reads). -/
structure UserPrefs where
  projectTypes : Option (List String)
  interests : Option (List String)
  availability : Option String
deriving DecidableEq

/-- MatchingAlgorithm.calculateInterestMatch (server.js:231-250).
The guard returns 50 when `userPreferences` or its `projectTypes` field
is missing.  `projectTags && userPreferences.interests` is true for
present (possibly empty) arrays; an empty tag list then produces the
0/0 = NaN ratio. -/
def calculateInterestMatch (userPreferences : Option UserPrefs)
    (projectCategory : Option String) (projectTags : Option (List String)) : JSNum :=
  match userPreferences with
  | none => .num 50
  | some prefs =>
    match prefs.projectTypes with
    | none => .num 50
    | some types =>
      let catScore : ℚ :=
        match projectCategory with
        | some c => if types.contains c then 60 else 0
        | none => 0
      match projectTags, prefs.interests with
      | some tags, some interests =>
        let matchingTags := tags.filter (fun tag =>
          interests.any (fun i => jsStrIncludes (jsToLower i) (jsToLower tag)))
        jsMin100 ((JSNum.num catScore).add ((jsDiv matchingTags.length tags.length).mulConst 40))
      | _, _ => jsMin100 (.num catScore)

/-- The fixed-shape factors record built by the pipeline (server.js:326-339). -/
structure MatchFactors where
  skillMatch : JSNum
  experienceMatch : JSNum
  availabilityMatch : JSNum
  locationMatch : JSNum
  interestMatch : JSNum
deriving DecidableEq

/-- MatchingAlgorithm.calculateOverallMatch (server.js:252-268).
`Object.entries(factors)` iterates the five keys in declaration order;
each contribution is `(score || 0) * (weights[factor] || 0)`, so a NaN
factor is coerced to 0 before the multiplication, and the weights
0.40 / 0.20 / 0.15 / 0.10 / 0.15 are all found in the table.  The sum
is an ordinary number, so `Math.round` returns an integer. -/
def calculateOverallMatch (factors : MatchFactors) : ℤ :=
  round (orZero factors.skillMatch * (0.4 : ℚ)
    + orZero factors.experienceMatch * (0.2 : ℚ)
    + orZero factors.availabilityMatch * (0.15 : ℚ)
    + orZero factors.locationMatch * (0.1 : ℚ)
    + orZero factors.interestMatch * (0.15 : ℚ))

/-- MatchingAlgorithm.generateMatchReasons (server.js:270-294). -/
def generateMatchReasons (factors : MatchFactors) : List String :=
  (if jsGtConst factors.skillMatch 80 then
    ["Strong skill match - you have " ++ toString (jsRound factors.skillMatch)
      ++ "% of required skills"] else [])
  ++ (if jsGtConst factors.experienceMatch 75 then
    ["Your experience level aligns well with project difficulty"] else [])
  ++ (if jsGtConst factors.availabilityMatch 80 then
    ["Your availability matches project requirements"] else [])
  ++ (if jsGtConst factors.locationMatch 90 then
    ["You\x27re in the same location as the project"] else [])
  ++ (if jsGtConst factors.interestMatch 70 then
    ["This project matches your interests and preferences"] else [])

/-- Feedback sub-document of the Match schema (server.js:81-85); the
endpoint stores whatever fields the request body carries. -/
structure Feedback where
  rating : Option ℚ
  comment : Option String
  helpful : Option Bool
deriving DecidableEq

/-- A persisted Match document (server.js:64-90).  `id` models the Mongo
`_id`; `createdAt`/`updatedAt` are modelled as abstract ticks. -/
structure MatchRec where
  id : ℕ
  userId : String
  projectId : String
  matchScore : ℤ
  matchFactors : MatchFactors
  matchReasons : List String
  status : String
  feedback : Option Feedback
  createdAt : ℕ
  updatedAt : ℕ
deriving DecidableEq

/-- The Match collection. -/
abbrev Store := List MatchRec

/-- User snapshot as read by the matching pipeline (`user.profile.*`,
`user.preferences`). -/
structure UserSnapshot where
  id : String
  skills : Option (List String)
  experience : Option String
  location : Option String
  preferences : Option UserPrefs
deriving DecidableEq

/-- Project snapshot as read by the matching pipeline.  `collaborators`
is the list of collaborator user ids; a missing list makes
`project.collaborators.some(...)` throw. -/
structure ProjectSnapshot where
  id : String
  collaborators : Option (List String)
  requiredSkills : Option (List String)
  optionalSkills : Option (List String)
  difficulty : Option String
  estimatedDuration : Option String
  location : Option String
  category : Option String
  tags : Option (List String)
deriving DecidableEq

/-- The factors record built for one (user, project) pair
(server.js:326-339).  `user.preferences?.availability` is optional
chaining; `project.optionalSkills` falls back to the `[]` default
parameter when missing. -/
def computeFactors (u : UserSnapshot) (p : ProjectSnapshot) : MatchFactors where
  skillMatch := calculateSkillMatch u.skills p.requiredSkills (p.optionalSkills.getD [])
  experienceMatch := .num (calculateExperienceMatch u.experience p.difficulty : ℤ)
  availabilityMatch := .num (calculateAvailabilityMatch
    (u.preferences.bind UserPrefs.availability) p.estimatedDuration)
  locationMatch := .num (calculateLocationMatch u.location p.location)
  interestMatch := calculateInterestMatch u.preferences p.category p.tags

/-- Match.findOne({ userId, projectId }) returned a document
(server.js:320, 404-407). -/
def memPair (store : Store) (uid pid : String) : Bool :=
  store.any (fun m => m.userId == uid && m.projectId == pid)

/-- Number of persisted records for one pair. -/
def countPair (store : Store) (uid pid : String) : ℕ :=
  (store.filter (fun m => m.userId == uid && m.projectId == pid)).length

/-- At most one Match record per (user, project) pair. -/
def pairUnique (store : Store) : Prop :=
  ∀ uid pid, countPair store uid pid ≤ 1

/-- The `new Match({...})` document saved by the pipeline
(server.js:347-355): status defaults to "pending", no feedback yet.
The model allocates the next id. -/
def mkMatch (store : Store) (uid pid : String) (score : ℤ) (factors : MatchFactors) : MatchRec where
  id := store.length
  userId := uid
  projectId := pid
  matchScore := score
  matchFactors := factors
  matchReasons := generateMatchReasons factors
  status := "pending"
  feedback := none
  createdAt := 0
  updatedAt := 0

/-- Mongoose validation of one numeric factor path
(`min: 0, max: 100`, server.js:69-73): NaN fails the cast assertion and
both range validators; an ordinary value must lie in [0,100]. -/
def validFactorValue : JSNum → Bool
  | .nan => false
  | .num q => decide (0 ≤ q ∧ q ≤ 100)

/-- Mongoose document validation run by `match.save()`: the five factor
paths and the required `matchScore` path (`min: 0, max: 100`,
server.js:67) must all validate.  The remaining paths (ids, reasons,
the default status "pending", absent feedback) always do for documents
the pipeline builds. -/
def saveValidates (m : MatchRec) : Bool :=
  validFactorValue m.matchFactors.skillMatch
    && validFactorValue m.matchFactors.experienceMatch
    && validFactorValue m.matchFactors.availabilityMatch
    && validFactorValue m.matchFactors.locationMatch
    && validFactorValue m.matchFactors.interestMatch
    && decide (0 ≤ m.matchScore ∧ m.matchScore ≤ 100)

/-- One iteration of the candidate loop of generateMatchesForUser
(server.js:313-376): skip collaborators, skip existing pairs, score,
and persist when the score reaches the threshold 30.  A missing
`collaborators` array makes the iteration throw (`Except.error`), and
so does a `match.save()` whose document fails mongoose validation
(a NaN factor value); the enclosing try/catch of the source turns
either throw into an abort of the whole batch. -/
def processCandidateProject (u : UserSnapshot) (store : Store)
    (p : ProjectSnapshot) : Except Unit Store :=
  match p.collaborators with
  | none => .error ()
  | some collabs =>
    if collabs.contains u.id then .ok store
    else if memPair store u.id p.id then .ok store
    else if 30 ≤ calculateOverallMatch (computeFactors u p) then
      if saveValidates (mkMatch store u.id p.id
          (calculateOverallMatch (computeFactors u p)) (computeFactors u p)) then
        .ok (store ++ [mkMatch store u.id p.id
          (calculateOverallMatch (computeFactors u p)) (computeFactors u p)])
      else .error ()
    else .ok store

/-- The candidate loop of generateMatchesForUser: the single
try/catch around the loop means the first failing candidate ends the
loop, keeping the records persisted so far and dropping the rest. -/
def processProjects (u : UserSnapshot) : Store → List ProjectSnapshot → Store
  | store, [] => store
  | store, p :: rest =>
    match processCandidateProject u store p with
    | .ok store2 => processProjects u store2 rest
    | .error _ => store

/-- generateMatchesForUser (server.js:298-383).  The two fetches are the
outcomes of the HTTP calls for this trigger; any failure is caught by
the function's own try/catch, which logs, bumps the error metric and
returns normally, leaving the store as it was. -/
def generateMatchesForUser (fetchUser : Except Unit UserSnapshot)
    (fetchProjects : Except Unit (List ProjectSnapshot)) (store : Store) : Store :=
  match fetchUser with
  | .error _ => store
  | .ok u =>
    match fetchProjects with
    | .error _ => store
    | .ok projects => processProjects u store projects

/-- One iteration of the candidate loop of generateMatchesForProject
(server.js:402-463): no collaborator check on this side, but the same
mongoose validation at `match.save()`. -/
def processCandidateUser (p : ProjectSnapshot) (store : Store)
    (u : UserSnapshot) : Except Unit Store :=
  if memPair store u.id p.id then .ok store
  else if 30 ≤ calculateOverallMatch (computeFactors u p) then
    if saveValidates (mkMatch store u.id p.id
        (calculateOverallMatch (computeFactors u p)) (computeFactors u p)) then
      .ok (store ++ [mkMatch store u.id p.id
        (calculateOverallMatch (computeFactors u p)) (computeFactors u p)])
    else .error ()
  else .ok store

/-- The candidate loop of generateMatchesForProject: like the user side
it runs inside one try/catch, so the first failing save ends the loop. -/
def processUsers (p : ProjectSnapshot) : Store → List UserSnapshot → Store
  | store, [] => store
  | store, u :: rest =>
    match processCandidateUser p store u with
    | .ok store2 => processUsers p store2 rest
    | .error _ => store

/-- generateMatchesForProject (server.js:386-470).
`project.requiredSkills.join(",")` throws before the users fetch when the
field is missing; all failures are caught by the function's try/catch. -/
def generateMatchesForProject (fetchProject : Except Unit ProjectSnapshot)
    (fetchUsers : Except Unit (List UserSnapshot)) (store : Store) : Store :=
  match fetchProject with
  | .error _ => store
  | .ok p =>
    match p.requiredSkills with
    | none => store
    | some _ =>
      match fetchUsers with
      | .error _ => store
      | .ok users => processUsers p store users

/-- One matching trigger, with the fetch outcomes of its unit of work. -/
inductive Trigger where
  | userTrigger (fetchUser : Except Unit UserSnapshot)
      (fetchProjects : Except Unit (List ProjectSnapshot))
  | projectTrigger (fetchProject : Except Unit ProjectSnapshot)
      (fetchUsers : Except Unit (List UserSnapshot))

/-- Dispatch of one trigger to the matching generator of its side. -/
def runTrigger : Trigger → Store → Store
  | .userTrigger fu fp, store => generateMatchesForUser fu fp store
  | .projectTrigger fp fus, store => generateMatchesForProject fp fus store

/-- A sequence of generation runs. -/
def runTriggers : List Trigger → Store → Store
  | [], store => store
  | t :: ts, store => runTriggers ts (runTrigger t store)

/-- Broker acknowledgement of a consumed event (server.js:109-134;
the nack carries requeue = false in the source). -/
inductive Ack where
  | ack : Ack
  | nack : Ack
deriving DecidableEq

/-- A parsed user event together with the fetch outcomes its processing
will see. -/
structure UserEventMsg where
  routingKey : String
  fetchUser : Except Unit UserSnapshot
  fetchProjects : Except Unit (List ProjectSnapshot)

/-- handleUserEvent (server.js:143-150). -/
def handleUserEvent (msg : UserEventMsg) (store : Store) : Store :=
  if msg.routingKey == "user.created" || msg.routingKey == "user.updated" then
    generateMatchesForUser msg.fetchUser msg.fetchProjects store
  else store

/-- The user_events consumer callback (server.js:109-120): a payload
that fails to parse is the only way this callback reaches its catch and
nacks; handleUserEvent itself cannot throw because
generateMatchesForUser swallows every error, so the message is acked. -/
def consumeUserEvent (raw : Option UserEventMsg) (store : Store) : Store × Ack :=
  match raw with
  | none => (store, .nack)
  | some msg => (handleUserEvent msg store, .ack)

deriving instance DecidableEq for Except

/-- Outcome of a match API endpoint call: 200 with the updated document,
400 invalid status, or 404 not found. -/
inductive ApiResult where
  | ok (m : MatchRec)
  | invalidStatus
  | notFound
deriving DecidableEq

/-- The status whitelist of the status endpoint (server.js:595). -/
def validStatuses : List String :=
  ["pending", "viewed", "interested", "applied", "rejected"]

/-- PUT /api/matches/:matchId/status (server.js:590-613): checks only
that the requested status is one of the five enum values, then
findByIdAndUpdate sets it unconditionally — there is no transition
check against the current status. -/
def updateMatchStatus (store : Store) (matchId : ℕ) (newStatus : String)
    (now : ℕ) : ApiResult × Store :=
  if !(validStatuses.contains newStatus) then (.invalidStatus, store)
  else
    match store.find? (fun m => m.id == matchId) with
    | none => (.notFound, store)
    | some m =>
      (.ok { m with status := newStatus, updatedAt := now },
        store.map (fun r =>
          if r.id == matchId then { r with status := newStatus, updatedAt := now } else r))

/-- POST /api/matches/:matchId/feedback (server.js:616-642):
findByIdAndUpdate replaces the feedback sub-document and updatedAt,
with no condition on the match status. -/
def attachFeedback (store : Store) (matchId : ℕ) (fb : Feedback)
    (now : ℕ) : ApiResult × Store :=
  match store.find? (fun m => m.id == matchId) with
  | none => (.notFound, store)
  | some m =>
    (.ok { m with feedback := some fb, updatedAt := now },
      store.map (fun r =>
        if r.id == matchId then { r with feedback := some fb, updatedAt := now } else r))

/-! Concrete snapshots used by the witnesses and counterexamples below. -/

/-- A candidate whose pair with `pThr` scores exactly 29:
skill 0, experience |1-3| distance (50), availability Part-time (75),
location disjoint (0), interest default (50):
round(0 + 10 + 11.25 + 0 + 7.5) = 29. -/
def uThr29 : UserSnapshot where
  id := "u1"
  skills := some ["zz"]
  experience := some "Entry Level"
  location := some "x"
  preferences := some { projectTypes := none, interests := none, availability := some "Part-time" }

/-- Same candidate with availability Flexible (85):
round(0 + 10 + 12.75 + 0 + 7.5) = 30. -/
def uThr30 : UserSnapshot where
  id := "u1"
  skills := some ["zz"]
  experience := some "Entry Level"
  location := some "x"
  preferences := some { projectTypes := none, interests := none, availability := some "Flexible" }

/-- The opportunity both threshold candidates are scored against. -/
def pThr : ProjectSnapshot where
  id := "p1"
  collaborators := some []
  requiredSkills := some ["aa"]
  optionalSkills := none
  difficulty := some "Advanced"
  estimatedDuration := none
  location := some "y"
  category := none
  tags := none

/-- A candidate project with a missing collaborators array: the
`project.collaborators.some(...)` call of the loop throws on it. -/
def pBadCollab : ProjectSnapshot where
  id := "pBad"
  collaborators := none
  requiredSkills := some ["aa"]
  optionalSkills := none
  difficulty := some "Advanced"
  estimatedDuration := none
  location := some "y"
  category := none
  tags := none

/-- A user whose pair with `pNan` hits both NaN factor computations. -/
def uNan : UserSnapshot where
  id := "u10"
  skills := some ["x"]
  experience := some "Entry Level"
  location := some "Paris"
  preferences := some { projectTypes := some ["Web"], interests := some ["ai"], availability := some "Full-time" }

/-- An opportunity with a present-but-empty required-skills list and a
present-but-empty tags list: skill and interest factors are both NaN,
yet experience (100), availability (100) and location (100) alone give
round(20 + 15 + 10) = 45 ≥ 30. -/
def pNan : ProjectSnapshot where
  id := "p10"
  collaborators := some []
  requiredSkills := some []
  optionalSkills := none
  difficulty := some "Beginner"
  estimatedDuration := none
  location := some "Paris"
  category := some "Web"
  tags := some []

/-- A persisted match currently in status applied. -/
def mApplied : MatchRec where
  id := 0
  userId := "u1"
  projectId := "p1"
  matchScore := 45
  matchFactors := ⟨.num 50, .num 50, .num 50, .num 50, .num 50⟩
  matchReasons := []
  status := "applied"
  feedback := none
  createdAt := 0
  updatedAt := 0

/-- A store holding exactly the (u1, p1) match. -/
def storeOne : Store := [mApplied]

/-- A feedback payload. -/
def fbSample : Feedback where
  rating := some 5
  comment := some "great"
  helpful := some true

/-- A user event whose user fetch fails for this trigger. -/
def msgFetchFail : UserEventMsg where
  routingKey := "user.created"
  fetchUser := .error ()
  fetchProjects := .ok []

/-- One trigger extends a store conservatively: pair uniqueness is
preserved and a pair already present keeps exactly its records. -/
def StoreExtends (store s₂ : Store) : Prop :=
  (pairUnique store → pairUnique s₂)
  ∧ ∀ uid pid, memPair store uid pid = true →
      countPair s₂ uid pid = countPair store uid pid ∧ memPair s₂ uid pid = true

/-! Claim C1: overall score as rounded weighted sum, bounded. -/

/-- C1: for a factors record whose five sub-scores are ordinary numbers in
[0,100], calculateOverallMatch returns the weighted sum with weights
skill 0.40, experience 0.20, availability 0.15, location 0.10,
interest 0.15, rounded to the nearest integer, and the result lies in
[0,100]. -/
theorem calculateOverallMatch_weighted_and_bounded
    (s e a l i : ℚ)
    (hs0 : 0 ≤ s) (hs1 : s ≤ 100) (he0 : 0 ≤ e) (he1 : e ≤ 100)
    (ha0 : 0 ≤ a) (ha1 : a ≤ 100) (hl0 : 0 ≤ l) (hl1 : l ≤ 100)
    (hi0 : 0 ≤ i) (hi1 : i ≤ 100) :
    calculateOverallMatch ⟨.num s, .num e, .num a, .num l, .num i⟩
        = round (s * (0.4 : ℚ) + e * (0.2 : ℚ) + a * (0.15 : ℚ)
            + l * (0.1 : ℚ) + i * (0.15 : ℚ))
      ∧ 0 ≤ calculateOverallMatch ⟨.num s, .num e, .num a, .num l, .num i⟩
      ∧ calculateOverallMatch ⟨.num s, .num e, .num a, .num l, .num i⟩ ≤ 100 := by
  have heq : calculateOverallMatch ⟨.num s, .num e, .num a, .num l, .num i⟩
      = round (s * (0.4 : ℚ) + e * (0.2 : ℚ) + a * (0.15 : ℚ)
          + l * (0.1 : ℚ) + i * (0.15 : ℚ)) := rfl
  refine ⟨heq, ?_, ?_⟩
  · rw [heq, round_eq, Int.le_floor]
    push_cast
    linarith
  · rw [heq, round_eq]
    have hlt : s * (0.4 : ℚ) + e * (0.2 : ℚ) + a * (0.15 : ℚ)
        + l * (0.1 : ℚ) + i * (0.15 : ℚ) + 1 / 2 < 101 := by linarith
    exact Int.lt_add_one_iff.mp (Int.floor_lt.mpr (by push_cast; linarith))

/-- Witness for C1 at the concrete factors (100, 50, 50, 0, 50). -/
theorem calculateOverallMatch_weighted_and_bounded_witness :
    calculateOverallMatch ⟨.num 100, .num 50, .num 50, .num 0, .num 50⟩
        = round ((100 : ℚ) * (0.4 : ℚ) + (50 : ℚ) * (0.2 : ℚ) + (50 : ℚ) * (0.15 : ℚ)
            + (0 : ℚ) * (0.1 : ℚ) + (50 : ℚ) * (0.15 : ℚ))
      ∧ 0 ≤ calculateOverallMatch ⟨.num 100, .num 50, .num 50, .num 0, .num 50⟩
      ∧ calculateOverallMatch ⟨.num 100, .num 50, .num 50, .num 0, .num 50⟩ ≤ 100 :=
  calculateOverallMatch_weighted_and_bounded 100 50 50 0 50
    (by norm_num) (by norm_num) (by norm_num) (by norm_num) (by norm_num)
    (by norm_num) (by norm_num) (by norm_num) (by norm_num) (by norm_num)

/-! Claim C9: the experience factor formula. -/

/-- Unrecognized or missing experience strings fall to the default level 1. -/
theorem experienceLevel_default (e : Option String)
    (he : e ∉ [some "Entry Level", some "Mid Level", some "Senior Level", some "Expert"]) :
    experienceLevel e = 1 := by
  cases e with
  | none => rfl
  | some s =>
    simp only [List.mem_cons, List.not_mem_nil, or_false, not_or,
      Option.some.injEq] at he
    obtain ⟨h1, h2, h3, h4⟩ := he
    simp [experienceLevel, h1, h2, h3, h4]

/-- Unrecognized or missing difficulty strings fall to the default level 1. -/
theorem difficultyLevel_default (d : Option String)
    (hd : d ∉ [some "Beginner", some "Intermediate", some "Advanced"]) :
    difficultyLevel d = 1 := by
  cases d with
  | none => rfl
  | some s =>
    simp only [List.mem_cons, List.not_mem_nil, or_false, not_or,
      Option.some.injEq] at hd
    obtain ⟨h1, h2, h3⟩ := hd
    simp [difficultyLevel, h1, h2, h3]

/-- C9: calculateExperienceMatch equals max(0, 100 - 25·|userLevel -
projectLevel|), unrecognized or missing experience and difficulty
strings both map to level 1, the result depends only on the absolute
level distance (symmetric in its sign), and an unknown experience tier
scores 100 against a Beginner project. -/
theorem experienceMatch_formula :
    (∀ e d, calculateExperienceMatch e d
        = max 0 (100 - 25 * |experienceLevel e - difficultyLevel d|))
    ∧ (∀ e, e ∉ [some "Entry Level", some "Mid Level", some "Senior Level", some "Expert"] →
        experienceLevel e = 1)
    ∧ (∀ d, d ∉ [some "Beginner", some "Intermediate", some "Advanced"] →
        difficultyLevel d = 1)
    ∧ (∀ e₁ d₁ e₂ d₂, experienceLevel e₁ - difficultyLevel d₁
          = -(experienceLevel e₂ - difficultyLevel d₂) →
        calculateExperienceMatch e₁ d₁ = calculateExperienceMatch e₂ d₂)
    ∧ (∀ e, e ∉ [some "Entry Level", some "Mid Level", some "Senior Level", some "Expert"] →
        calculateExperienceMatch e (some "Beginner") = 100) := by
  refine ⟨fun e d => by simp [calculateExperienceMatch, mul_comm],
    experienceLevel_default, difficultyLevel_default, ?_, ?_⟩
  · intro e₁ d₁ e₂ d₂ h
    unfold calculateExperienceMatch
    rw [h, abs_neg]
  · intro e he
    unfold calculateExperienceMatch
    rw [experienceLevel_default e he]
    rfl

/-- Witness for C9: the unknown tier "Wizard" maps to level 1 and scores
100 against a Beginner project. -/
theorem experienceMatch_formula_witness :
    calculateExperienceMatch (some "Wizard") (some "Beginner") = 100
    ∧ experienceLevel (some "Wizard") = 1 :=
  ⟨experienceMatch_formula.2.2.2.2 (some "Wizard") (by decide),
   experienceMatch_formula.2.1 (some "Wizard") (by decide)⟩

/-! Claim C5: skill factor on an empty required-skills list. -/

/-- C5 counterexample: with a present-but-empty required-skills list the
skill factor is NaN, not the documented edge-case value 0. -/
theorem skillMatch_empty_required_cx :
    calculateSkillMatch (some ["javascript"]) (some []) [] = JSNum.nan
    ∧ calculateSkillMatch (some ["javascript"]) (some []) [] ≠ JSNum.num 0 := by
  decide

/-- C5 amended: calculateSkillMatch returns 0 only when the user-skills
or required-skills argument is missing entirely; for a present-but-empty
required-skills list the 0/0 coverage ratio makes the result NaN. -/
theorem calculateSkillMatch_missing_vs_empty :
    (∀ (rs : Option (List String)) (os : List String),
        calculateSkillMatch none rs os = JSNum.num 0)
    ∧ (∀ (us os : List String), calculateSkillMatch (some us) none os = JSNum.num 0)
    ∧ (∀ (us os : List String), calculateSkillMatch (some us) (some []) os = JSNum.nan) := by
  refine ⟨fun rs os => rfl, fun us os => rfl, fun us os => ?_⟩
  cases os with
  | nil => rfl
  | cons o os => rfl

/-! Claim C10: NaN factors are coerced to 0 in the overall score, and
the attempted save of a NaN factor value is rejected by mongoose. -/

/-- C10 counterexample: for a pair whose skill and interest factors are
both NaN (empty required-skills list, empty tags list with declared
interests), the overall score is the ordinary number 45 — not NaN — the
threshold comparison evaluates to true — not false — and the pair is not
silently skipped: the candidate iteration throws (the save is rejected),
so the batch aborts with an error and no record. -/
theorem nanFactors_abort_not_silent_cx :
    (computeFactors uNan pNan).skillMatch = JSNum.nan
    ∧ (computeFactors uNan pNan).interestMatch = JSNum.nan
    ∧ calculateOverallMatch (computeFactors uNan pNan) = 45
    ∧ (30 ≤ calculateOverallMatch (computeFactors uNan pNan))
    ∧ processCandidateProject uNan [] pNan = .error ()
    ∧ generateMatchesForUser (Except.ok uNan) (Except.ok [pNan]) [] = ([] : Store) := by
  decide

/-- C10 amended: a NaN factor is coerced to 0 by the `(score || 0)` guard
inside calculateOverallMatch, so with NaN skill and interest factors the
overall score is the ordinary rounded weighted sum of the remaining three
factors — never NaN — and the threshold comparison evaluates normally;
when it passes for a fresh non-collaborator pair with a NaN skill factor,
the pipeline attempts the save, mongoose validation rejects the NaN, and
the iteration throws instead of silently skipping the pair. -/
theorem overallMatch_nan_coerced_save_rejected :
    (∀ f : MatchFactors, f.skillMatch = JSNum.nan → f.interestMatch = JSNum.nan →
      calculateOverallMatch f
        = round (orZero f.experienceMatch * (0.2 : ℚ)
            + orZero f.availabilityMatch * (0.15 : ℚ)
            + orZero f.locationMatch * (0.1 : ℚ)))
    ∧ (∀ (u : UserSnapshot) (p : ProjectSnapshot) (store : Store) (cs : List String),
        p.collaborators = some cs → cs.contains u.id = false →
        memPair store u.id p.id = false →
        (computeFactors u p).skillMatch = JSNum.nan →
        30 ≤ calculateOverallMatch (computeFactors u p) →
        processCandidateProject u store p = .error ()) := by
  constructor
  · intro f hs hi
    unfold calculateOverallMatch
    rw [hs, hi]
    norm_num [orZero]
  · intro u p store cs hc hnc hnm hnan hs
    have hv : saveValidates (mkMatch store u.id p.id
        (calculateOverallMatch (computeFactors u p)) (computeFactors u p)) = false := by
      unfold saveValidates
      rw [show (mkMatch store u.id p.id (calculateOverallMatch (computeFactors u p))
          (computeFactors u p)).matchFactors = computeFactors u p from rfl, hnan]
      rfl
    simp only [processCandidateProject, hc]
    rw [if_neg (by rw [hnc]; simp), if_neg (by rw [hnm]; simp), if_pos hs,
      if_neg (by rw [hv]; simp)]

/-- Witness for C10's amended theorem: the NaN-coercion formula at
concrete factors, and the rejected save of the concrete NaN pair against
a nonempty store. -/
theorem overallMatch_nan_coerced_save_rejected_witness :
    calculateOverallMatch ⟨JSNum.nan, .num 100, .num 100, .num 100, JSNum.nan⟩
        = round (orZero (JSNum.num 100) * (0.2 : ℚ)
            + orZero (JSNum.num 100) * (0.15 : ℚ)
            + orZero (JSNum.num 100) * (0.1 : ℚ))
    ∧ processCandidateProject uNan storeOne pNan = .error () :=
  ⟨overallMatch_nan_coerced_save_rejected.1
      ⟨JSNum.nan, .num 100, .num 100, .num 100, JSNum.nan⟩ rfl rfl,
   overallMatch_nan_coerced_save_rejected.2 uNan pNan storeOne [] rfl
      (by decide) (by decide) (by decide) (by decide)⟩

/-! Claim C3: the status endpoint performs no transition validation. -/

/-- C3 counterexample: a request to move the applied match back to
pending succeeds (neither error outcome) and the new status is stored. -/
theorem statusUpdate_applied_to_pending_succeeds_cx :
    mApplied.status = "applied"
    ∧ (updateMatchStatus storeOne 0 "pending" 7).1 ≠ ApiResult.invalidStatus
    ∧ (updateMatchStatus storeOne 0 "pending" 7).1 ≠ ApiResult.notFound
    ∧ (updateMatchStatus storeOne 0 "pending" 7).2.map MatchRec.status = ["pending"] := by
  decide

/-- C3 amended: the endpoint rejects only unknown status strings (an
invalid-status error, distinct from not-found) and missing matches
(not-found); any of the five enum statuses is accepted from any current
status — including applied to pending — and is written unconditionally. -/
theorem updateStatus_no_transition_check :
    (∀ (store : Store) (matchId : ℕ) (s : String) (now : ℕ),
        validStatuses.contains s = false →
        updateMatchStatus store matchId s now = (ApiResult.invalidStatus, store))
    ∧ (∀ (store : Store) (matchId : ℕ) (s : String) (now : ℕ),
        validStatuses.contains s = true →
        store.find? (fun r => r.id == matchId) = none →
        updateMatchStatus store matchId s now = (ApiResult.notFound, store))
    ∧ (∀ (store : Store) (matchId : ℕ) (s : String) (now : ℕ) (m : MatchRec),
        validStatuses.contains s = true →
        store.find? (fun r => r.id == matchId) = some m →
        updateMatchStatus store matchId s now
          = (ApiResult.ok { m with status := s, updatedAt := now },
             store.map (fun r =>
               if r.id == matchId then { r with status := s, updatedAt := now } else r)))
    ∧ ApiResult.invalidStatus ≠ ApiResult.notFound := by
  refine ⟨?_, ?_, ?_, by decide⟩
  · intro store matchId s now h
    unfold updateMatchStatus
    rw [h]
    rfl
  · intro store matchId s now h hf
    unfold updateMatchStatus
    rw [h, hf]
    rfl
  · intro store matchId s now m h hf
    unfold updateMatchStatus
    rw [h, hf]
    rfl

/-- Witness for C3's amended theorem: a valid status request on the
applied match succeeds and overwrites the status. -/
theorem updateStatus_no_transition_check_witness :
    updateMatchStatus storeOne 0 "viewed" 9
      = (ApiResult.ok { mApplied with status := "viewed", updatedAt := 9 },
         storeOne.map (fun r =>
           if r.id == 0 then { r with status := "viewed", updatedAt := 9 } else r)) :=
  updateStatus_no_transition_check.2.2.1 storeOne 0 "viewed" 9 mApplied
    (by decide) (by decide)

/-! Claim C8: feedback attachment ignores and preserves status. -/

/-- C8: attaching feedback to an existing match succeeds whatever the
match's current status is, and every stored record keeps its status and
all other fields except the feedback sub-document and updatedAt. -/
theorem attachFeedback_ignores_status (store : Store) (matchId : ℕ)
    (fb : Feedback) (now : ℕ) (m : MatchRec)
    (hfind : store.find? (fun r => r.id == matchId) = some m) :
    (attachFeedback store matchId fb now).1
        = ApiResult.ok { m with feedback := some fb, updatedAt := now }
    ∧ (attachFeedback store matchId fb now).2
        = store.map (fun r =>
            if r.id == matchId then { r with feedback := some fb, updatedAt := now } else r)
    ∧ ∀ r ∈ (attachFeedback store matchId fb now).2, ∃ r0 ∈ store,
        r.status = r0.status ∧ r.userId = r0.userId ∧ r.projectId = r0.projectId
          ∧ r.matchScore = r0.matchScore ∧ r.matchFactors = r0.matchFactors
          ∧ r.matchReasons = r0.matchReasons ∧ r.createdAt = r0.createdAt := by
  have h1 : attachFeedback store matchId fb now
      = (ApiResult.ok { m with feedback := some fb, updatedAt := now },
         store.map (fun r =>
           if r.id == matchId then { r with feedback := some fb, updatedAt := now } else r)) := by
    unfold attachFeedback
    rw [hfind]
  refine ⟨by rw [h1], by rw [h1], ?_⟩
  rw [h1]
  intro r hr
  simp only [List.mem_map] at hr
  obtain ⟨r0, hr0, hrfl⟩ := hr
  subst hrfl
  refine ⟨r0, hr0, ?_⟩
  by_cases hc : (r0.id == matchId) = true
  · simp [hc]
  · simp [hc]

/-- Witness for C8 on the applied match. -/
theorem attachFeedback_ignores_status_witness :
    (attachFeedback storeOne 0 fbSample 4).1
      = ApiResult.ok { mApplied with feedback := some fbSample, updatedAt := 4 } :=
  (attachFeedback_ignores_status storeOne 0 fbSample 4 mApplied (by decide)).1

/-! Claim C7: fetch failures are swallowed; the event is acked. -/

/-- C7 counterexample: with the user fetch failing, the trigger writes
nothing but the consumer positively acknowledges the event — it is not
negatively acknowledged. -/
theorem fetch_failure_event_acked_cx :
    consumeUserEvent (some msgFetchFail) ([] : Store) = (([] : Store), Ack.ack)
    ∧ Ack.ack ≠ Ack.nack := by
  decide

/-- C7 amended: a collaborator fetch failure aborts the trigger with no
Match records written, but the error is caught inside
generateMatchesForUser (logged and counted), so the consumer callback
acknowledges the event positively; a negative acknowledgement happens
only when the payload itself fails to parse. -/
theorem fetchFailure_no_writes_acked :
    (∀ store : Store, consumeUserEvent none store = (store, Ack.nack))
    ∧ (∀ (msg : UserEventMsg) (store : Store),
        msg.fetchUser = Except.error () ∨ msg.fetchProjects = Except.error () →
        consumeUserEvent (some msg) store = (store, Ack.ack)) := by
  refine ⟨fun store => rfl, ?_⟩
  intro msg store h
  rcases h with h | h
  · simp [consumeUserEvent, handleUserEvent, generateMatchesForUser, h]
  · cases hu : msg.fetchUser with
    | error e => simp [consumeUserEvent, handleUserEvent, generateMatchesForUser, hu]
    | ok u => simp [consumeUserEvent, handleUserEvent, generateMatchesForUser, hu, h]

/-- Witness for C7's amended theorem: the failing-fetch event leaves the
nonempty store untouched and is acked. -/
theorem fetchFailure_no_writes_acked_witness :
    consumeUserEvent (some msgFetchFail) storeOne = (storeOne, Ack.ack) :=
  fetchFailure_no_writes_acked.2 msgFetchFail storeOne (Or.inl rfl)

/-! Claim C2: per-pair idempotence of match generation. -/

/-- Pair counts add over store concatenation. -/
theorem countPair_append (s t : Store) (uid pid : String) :
    countPair (s ++ t) uid pid = countPair s uid pid + countPair t uid pid := by
  simp [countPair, List.filter_append]

/-- A pair that findOne does not see has no records. -/
theorem countPair_eq_zero (s : Store) (uid pid : String)
    (h : memPair s uid pid = false) : countPair s uid pid = 0 := by
  simp only [memPair, List.any_eq_false] at h
  simp only [countPair, List.length_eq_zero, List.filter_eq_nil_iff]
  exact h

/-- Membership of a pair survives appending records. -/
theorem memPair_append_left (s t : Store) (uid pid : String)
    (h : memPair s uid pid = true) : memPair (s ++ t) uid pid = true := by
  simp only [memPair, List.any_append, Bool.or_eq_true]
  exact Or.inl h

/-- StoreExtends is reflexive. -/
theorem storeExtends_refl (store : Store) : StoreExtends store store :=
  ⟨id, fun _ _ hm => ⟨rfl, hm⟩⟩

/-- StoreExtends composes. -/
theorem storeExtends_trans {a b c : Store}
    (h1 : StoreExtends a b) (h2 : StoreExtends b c) : StoreExtends a c :=
  ⟨fun hpu => h2.1 (h1.1 hpu),
   fun uid pid hm =>
     ⟨((h2.2 uid pid (h1.2 uid pid hm).2).1).trans (h1.2 uid pid hm).1,
      (h2.2 uid pid (h1.2 uid pid hm).2).2⟩⟩

/-- Appending one record for a pair that is absent from the store is a
conservative extension. -/
theorem storeExtends_append (store : Store) (m : MatchRec) (uidm pidm : String)
    (hm1 : m.userId = uidm) (hm2 : m.projectId = pidm)
    (hmem : memPair store uidm pidm = false) :
    StoreExtends store (store ++ [m]) := by
  constructor
  · intro hpu uid pid
    rw [countPair_append]
    by_cases hp : (m.userId == uid && m.projectId == pid) = true
    · simp only [Bool.and_eq_true, beq_iff_eq] at hp
      have h0 : countPair store uid pid = 0 := by
        apply countPair_eq_zero
        rw [← hp.1, ← hp.2, hm1, hm2]
        exact hmem
      have hc1 : countPair [m] uid pid = 1 := by
        simp [countPair, List.filter_cons, hp.1, hp.2]
      rw [h0, hc1]
    · have hc0 : countPair [m] uid pid = 0 := by
        simp only [countPair, List.filter_cons, hp]
        rfl
      rw [hc0]
      simpa using hpu uid pid
  · intro uid pid hm
    constructor
    · rw [countPair_append]
      have hc0 : countPair [m] uid pid = 0 := by
        by_cases hp : (m.userId == uid && m.projectId == pid) = true
        · exfalso
          simp only [Bool.and_eq_true, beq_iff_eq] at hp
          rw [← hp.1, ← hp.2, hm1, hm2] at hm
          rw [hm] at hmem
          exact Bool.noConfusion hmem
        · simp only [countPair, List.filter_cons, hp]
          rfl
      rw [hc0]
      rfl
    · exact memPair_append_left store [m] uid pid hm

/-- A successful user-side candidate iteration either leaves the store
unchanged or appends exactly one record for a pair it first checked to
be absent. -/
theorem processCandidateProject_ok (u : UserSnapshot) (store : Store)
    (p : ProjectSnapshot) (s₂ : Store)
    (h : processCandidateProject u store p = .ok s₂) :
    s₂ = store ∨ (memPair store u.id p.id = false ∧
      ∃ m : MatchRec, m.userId = u.id ∧ m.projectId = p.id ∧ s₂ = store ++ [m]) := by
  unfold processCandidateProject at h
  split at h
  · exact absurd h (by simp)
  · split_ifs at h with h1 h2 h3 h4 <;>
    first
      | exact Except.noConfusion h
      | (simp only [Except.ok.injEq] at h
         exact Or.inl h.symm)
      | (simp only [Except.ok.injEq] at h
         exact Or.inr ⟨by simp only [Bool.eq_false_iff]; assumption, _, rfl, rfl, h.symm⟩)

/-- A successful project-side candidate iteration either leaves the
store unchanged or appends exactly one record for a pair it first
checked to be absent. -/
theorem processCandidateUser_cases (p : ProjectSnapshot) (store : Store)
    (u : UserSnapshot) (s₂ : Store)
    (h : processCandidateUser p store u = .ok s₂) :
    s₂ = store ∨ (memPair store u.id p.id = false ∧
      ∃ m : MatchRec, m.userId = u.id ∧ m.projectId = p.id ∧ s₂ = store ++ [m]) := by
  unfold processCandidateUser at h
  split_ifs at h with h1 h2 h3 <;>
  first
    | exact Except.noConfusion h
    | (simp only [Except.ok.injEq] at h
       exact Or.inl h.symm)
    | (simp only [Except.ok.injEq] at h
       exact Or.inr ⟨by simp only [Bool.eq_false_iff]; assumption, _, rfl, rfl, h.symm⟩)

/-- One successful user-side candidate iteration extends conservatively. -/
theorem stepExtends_user (u : UserSnapshot) (store : Store) (p : ProjectSnapshot)
    (s₂ : Store) (h : processCandidateProject u store p = .ok s₂) :
    StoreExtends store s₂ := by
  rcases processCandidateProject_ok u store p s₂ h with rfl | ⟨hmem, m, hm1, hm2, rfl⟩
  · exact storeExtends_refl _
  · exact storeExtends_append store m u.id p.id hm1 hm2 hmem

/-- One successful project-side candidate iteration extends
conservatively. -/
theorem stepExtends_proj (p : ProjectSnapshot) (store : Store) (u : UserSnapshot)
    (s₂ : Store) (h : processCandidateUser p store u = .ok s₂) :
    StoreExtends store s₂ := by
  rcases processCandidateUser_cases p store u s₂ h with rfl | ⟨hmem, m, hm1, hm2, rfl⟩
  · exact storeExtends_refl _
  · exact storeExtends_append store m u.id p.id hm1 hm2 hmem

/-- The user-side candidate loop extends conservatively. -/
theorem processProjects_extends (u : UserSnapshot) (ps : List ProjectSnapshot) :
    ∀ store : Store, StoreExtends store (processProjects u store ps) := by
  induction ps with
  | nil =>
    intro store
    exact storeExtends_refl store
  | cons p rest ih =>
    intro store
    cases hpc : processCandidateProject u store p with
    | error e =>
      simp only [processProjects, hpc]
      exact storeExtends_refl store
    | ok s₂ =>
      simp only [processProjects, hpc]
      exact storeExtends_trans (stepExtends_user u store p s₂ hpc) (ih s₂)

/-- The project-side candidate loop extends conservatively. -/
theorem processUsers_extends (p : ProjectSnapshot) (us : List UserSnapshot) :
    ∀ store : Store, StoreExtends store (processUsers p store us) := by
  induction us with
  | nil =>
    intro store
    exact storeExtends_refl store
  | cons u rest ih =>
    intro store
    cases hpc : processCandidateUser p store u with
    | error e =>
      simp only [processUsers, hpc]
      exact storeExtends_refl store
    | ok s₂ =>
      simp only [processUsers, hpc]
      exact storeExtends_trans (stepExtends_proj p store u s₂ hpc) (ih s₂)

/-- A whole user-side trigger extends conservatively. -/
theorem generateMatchesForUser_extends (fu : Except Unit UserSnapshot)
    (fp : Except Unit (List ProjectSnapshot)) (store : Store) :
    StoreExtends store (generateMatchesForUser fu fp store) := by
  cases fu with
  | error e => exact storeExtends_refl store
  | ok u =>
    cases fp with
    | error e => exact storeExtends_refl store
    | ok ps => exact processProjects_extends u ps store

/-- A whole project-side trigger extends conservatively. -/
theorem generateMatchesForProject_extends (fp : Except Unit ProjectSnapshot)
    (fus : Except Unit (List UserSnapshot)) (store : Store) :
    StoreExtends store (generateMatchesForProject fp fus store) := by
  cases fp with
  | error e => exact storeExtends_refl store
  | ok p =>
    cases hrs : p.requiredSkills with
    | none =>
      simp only [generateMatchesForProject, hrs]
      exact storeExtends_refl store
    | some rs =>
      simp only [generateMatchesForProject, hrs]
      cases fus with
      | error e => exact storeExtends_refl store
      | ok us => exact processUsers_extends p us store

/-- Any sequence of triggers extends conservatively. -/
theorem runTriggers_extends (ts : List Trigger) :
    ∀ store : Store, StoreExtends store (runTriggers ts store) := by
  induction ts with
  | nil =>
    intro store
    exact storeExtends_refl store
  | cons t ts ih =>
    intro store
    simp only [runTriggers]
    refine storeExtends_trans ?_ (ih (runTrigger t store))
    cases t with
    | userTrigger fu fp => exact generateMatchesForUser_extends fu fp store
    | projectTrigger fp fus => exact generateMatchesForProject_extends fp fus store

/-- C2: match creation is idempotent per pair — across any sequence of
generation runs (either side, any fetch outcomes) a store with at most
one record per pair keeps that invariant, and a pair that already has a
record gains no second one (the generators return normally in every
case, so nothing is raised). -/
theorem matchGeneration_idempotent_per_pair (ts : List Trigger) (store : Store)
    (h : pairUnique store) :
    pairUnique (runTriggers ts store)
    ∧ ∀ uid pid, memPair store uid pid = true →
        countPair (runTriggers ts store) uid pid = countPair store uid pid :=
  ⟨(runTriggers_extends ts store).1 h,
   fun uid pid hm => ((runTriggers_extends ts store).2 uid pid hm).1⟩

/-- Witness for C2: re-running generation for the already-persisted
(u1, p1) pair — which would otherwise score 30 and be created — leaves
exactly one record. -/
theorem matchGeneration_idempotent_per_pair_witness :
    countPair (runTriggers [Trigger.userTrigger (.ok uThr30) (.ok [pThr])] storeOne)
      "u1" "p1" = 1 :=
  ((matchGeneration_idempotent_per_pair
      [Trigger.userTrigger (.ok uThr30) (.ok [pThr])] storeOne
      (fun uid pid => List.length_filter_le _ _)).2 "u1" "p1" (by decide)).trans
    (by decide)

/-! Claim C4: the creation threshold is 30, inclusive — for pairs whose
document passes save validation. -/

/-- C4 counterexample: a fresh non-collaborator pair scoring 45 — well
above the threshold — is nevertheless not persisted: its NaN skill
factor makes mongoose reject the save, the iteration throws, and the
trigger ends with an empty store. -/
theorem over_threshold_pair_not_persisted_cx :
    calculateOverallMatch (computeFactors uNan pNan) = 45
    ∧ pNan.collaborators = some []
    ∧ memPair [] uNan.id pNan.id = false
    ∧ processCandidateProject uNan [] pNan
        ≠ .ok ([] ++ [mkMatch [] uNan.id pNan.id
            (calculateOverallMatch (computeFactors uNan pNan)) (computeFactors uNan pNan)])
    ∧ generateMatchesForUser (Except.ok uNan) (Except.ok [pNan]) [] = ([] : Store) := by
  decide

/-- C4 amended: for a fresh, non-collaborator pair whose match document
passes mongoose save validation (every factor an ordinary number in
[0,100] — no NaN), the candidate iteration persists exactly one new
record when the overall score reaches 30 and leaves the store completely
unchanged (no record of any kind) when it is below 30. -/
theorem creation_threshold_boundary (u : UserSnapshot) (p : ProjectSnapshot)
    (store : Store) (cs : List String) (hc : p.collaborators = some cs)
    (hnc : cs.contains u.id = false) (hnm : memPair store u.id p.id = false)
    (hv : saveValidates (mkMatch store u.id p.id
        (calculateOverallMatch (computeFactors u p)) (computeFactors u p)) = true) :
    (30 ≤ calculateOverallMatch (computeFactors u p) →
      processCandidateProject u store p
        = .ok (store ++ [mkMatch store u.id p.id
            (calculateOverallMatch (computeFactors u p)) (computeFactors u p)]))
    ∧ (calculateOverallMatch (computeFactors u p) < 30 →
      processCandidateProject u store p = .ok store) := by
  constructor <;> intro hs <;>
    simp only [processCandidateProject, hc] <;>
    rw [if_neg (by rw [hnc]; simp), if_neg (by rw [hnm]; simp)]
  · rw [if_pos hs, if_pos hv]
  · rw [if_neg (not_le.mpr hs)]

/-- Witness for C4: the Flexible-availability candidate scores exactly 30
and is persisted; the Part-time variant scores 29 and leaves no record. -/
theorem creation_threshold_boundary_witness :
    calculateOverallMatch (computeFactors uThr30 pThr) = 30
    ∧ processCandidateProject uThr30 [] pThr
        = .ok ([] ++ [mkMatch [] uThr30.id pThr.id
            (calculateOverallMatch (computeFactors uThr30 pThr)) (computeFactors uThr30 pThr)])
    ∧ calculateOverallMatch (computeFactors uThr29 pThr) = 29
    ∧ processCandidateProject uThr29 [] pThr = .ok ([] : Store) :=
  ⟨by decide,
   (creation_threshold_boundary uThr30 pThr [] [] rfl (by decide) (by decide)
      (by decide)).1 (by decide),
   by decide,
   (creation_threshold_boundary uThr29 pThr [] [] rfl (by decide) (by decide)
      (by decide)).2 (by decide)⟩

/-! Claim C6: a per-candidate failure aborts the rest of the batch. -/

/-- C6 counterexample: a candidate with a missing collaborators array
throws; with it first in the batch the qualifying candidate behind it is
never scored or persisted, although alone it would have been. -/
theorem failing_candidate_aborts_batch_cx :
    processCandidateProject uThr30 [] pBadCollab = .error ()
    ∧ generateMatchesForUser (.ok uThr30) (.ok [pBadCollab, pThr]) [] = ([] : Store)
    ∧ generateMatchesForUser (.ok uThr30) (.ok [pThr]) [] ≠ ([] : Store) := by
  decide

/-- C6 amended: the candidate loop of generateMatchesForUser runs inside
one try/catch, so the first failing candidate ends the batch: the store
stays as it was at the failure (earlier persists kept) and every
remaining candidate is skipped, while the function itself still returns
normally. -/
theorem perCandidate_failure_aborts_rest (u : UserSnapshot) (store : Store)
    (c : ProjectSnapshot) (rest : List ProjectSnapshot)
    (h : processCandidateProject u store c = .error ()) :
    processProjects u store (c :: rest) = store := by
  simp only [processProjects, h]

/-- Witness for C6's amended theorem on the concrete failing batch. -/
theorem perCandidate_failure_aborts_rest_witness :
    processProjects uThr30 [] [pBadCollab, pThr] = ([] : Store) :=
  perCandidate_failure_aborts_rest uThr30 [] pBadCollab [pThr] (by decide)
